import Mathlib

/-!
Shallow embedding of the gif service (src/src/main.rs): data model, the
snowflake id generator call, the two storage queries, the four route
handlers, the rejection handler, and the route dispatch built in main.
-/

namespace GifApp

/-- JSON values, as produced by serde serialization of the response bodies. -/
inductive Json where
  | int : Int → Json
  | str : String → Json
  | arr : List Json → Json
  | obj : List (String × Json) → Json

/-- Row type Gif from src: a row of the gif_gifs table. -/
structure Gif where
  id : Int
  url : String
  category : String
deriving DecidableEq, Repr

/-- Struct Id from src: the single-column result row of the insert query. -/
structure Id where
  id : Int
deriving DecidableEq, Repr

/-- Struct ErrorMessage from src: the error envelope serialized to JSON. -/
structure ErrorMessage where
  code : Nat
  message : String
deriving DecidableEq, Repr

/-- Serde serialization of a Gif row (field order as declared). -/
def serializeGif (g : Gif) : Json :=
  Json.obj [("id", Json.int g.id), ("url", Json.str g.url), ("category", Json.str g.category)]

/-- Serde serialization of an Id row. -/
def serializeId (i : Id) : Json :=
  Json.obj [("id", Json.int i.id)]

/-- Serde serialization of a Vec of Id rows: a JSON array (this is what
post_gifs hands to warp reply json, the whole vector). -/
def serializeIdList (l : List Id) : Json :=
  Json.arr (l.map serializeId)

/-- Serde serialization of the ErrorMessage envelope. -/
def serializeErrorMessage (e : ErrorMessage) : Json :=
  Json.obj [("code", Json.int e.code), ("message", Json.str e.message)]

/-- Modelled from the spec: the state of the external rustflake Snowflake
generator (the rustflake crate is a dependency, not part of this repository).
Fields follow the spec, section 3 IdGeneratorState. -/
structure Snowflake where
  epoch : Int
  worker_id : Int
  process_id : Int
  sequence : Int
  last_timestamp : Int
deriving DecidableEq, Repr

/-- Modelled from the spec: Snowflake construction; the mutable fields
(sequence, last_timestamp) start at 0. -/
def Snowflake.new (epoch worker_id process_id : Int) : Snowflake :=
  ⟨epoch, worker_id, process_id, 0, 0⟩

/-- Modelled from the spec: one generation step of the external generator,
with the current wall-clock millisecond passed explicitly as `now`. If `now`
equals the stored last_timestamp the sequence is incremented (12-bit field);
otherwise the sequence resets to 0 and last_timestamp is updated. The
returned id packs timestamp delta, worker id, process id and sequence into
the Discord snowflake layout (shifts by 22, 17 and 12 bits; with the fields
in range, bitwise or coincides with this addition). Returns the successor
state and the generated id. -/
def Snowflake.generate (s : Snowflake) (now : Int) : Snowflake × Int :=
  let s' :=
    if now = s.last_timestamp then
      { s with sequence := (s.sequence + 1) % 4096 }
    else
      { s with sequence := 0, last_timestamp := now }
  (s', (now - s'.epoch) * 2 ^ 22 + s'.worker_id * 2 ^ 17 + s'.process_id * 2 ^ 12 + s'.sequence)

/-- gen_flake from src: constructs a NEW Snowflake (Discord epoch
1420070400000, worker 1, process 1) locally on every call, generates a single
id from that fresh state, and drops the state on return. `now` is the current
wall-clock millisecond at the time of the call. -/
def gen_flake (now : Int) : Int :=
  ((Snowflake.new 1420070400000 1 1).generate now).2

/-- The ids produced by a sequence of gen_flake calls at the given wall-clock
milliseconds (each call builds its own fresh Snowflake, as in src). -/
def gen_flake_calls (times : List Int) : List Int :=
  times.map gen_flake

/-- Modelled from the spec: the ids a single long-lived generator instance
would produce over the same sequence of calls, threading its state. -/
def gen_calls_single (s : Snowflake) : List Int → List Int
  | [] => []
  | t :: ts =>
    let r := s.generate t
    r.2 :: gen_calls_single r.1 ts

/-- A bound parameter of a SQL query: sqlx binds i64 and String values. -/
inductive SqlParam where
  | int : Int → SqlParam
  | str : String → SqlParam
deriving DecidableEq, Repr

/-- A query as submitted by sqlx query_as: a fixed query text together with
the list of bound parameters (referred to in the text as dollar-number
placeholders). -/
structure SqlQuery where
  text : String
  params : List SqlParam
deriving DecidableEq, Repr

/-- The query text of the random-select-by-category query in get_gifs,
exactly as written in src (a string literal; user input appears only as the
placeholder for the first bound parameter). -/
def fetchQueryText : String :=
  "
        select id, url, category
        from gif_gifs
        WHERE category = $1
        order by random()
        limit 1
        "

/-- The query text of the insert-returning-id query in post_gifs, exactly as
written in src (a string literal; inputs appear only as placeholders). -/
def insertQueryText : String :=
  "
        INSERT INTO public.gif_gifs (id, url, category)
        VALUES ($1, $2, $3)
        returning id;
        "

/-- The query get_gifs submits for a category: the fixed text with the
category bound as the single parameter. -/
def fetch_gifs_query (cat : String) : SqlQuery :=
  ⟨fetchQueryText, [SqlParam.str cat]⟩

/-- The query post_gifs submits: the fixed text with the generated id, the
url and the category bound as the three parameters. -/
def insert_gif_query (id : Int) (url cat : String) : SqlQuery :=
  ⟨insertQueryText, [SqlParam.int id, SqlParam.str url, SqlParam.str cat]⟩

/-- The gif_gifs table, as a list of rows. -/
abbrev Table := List Gif

/-- Result rows of executing the fetch query against a table: the rows whose
category equals the bound parameter, ordered randomly, truncated to one row.
The random shuffle is modelled by `pick`, an arbitrary choice of which
matching row comes first; zero matches give the empty result set. -/
def runFetch (t : Table) (cat : String) (pick : Nat) : List Gif :=
  let ms := t.filter (fun g => g.category = cat)
  (ms[pick % ms.length]?).toList

/-- Effect of executing the insert query against a table: the row is added
and the result set holds the single returned id. -/
def runInsert (t : Table) (id : Int) (url cat : String) : Table × List Id :=
  (t ++ [⟨id, url, cat⟩], [⟨id⟩])

/-- Rejections as classified by handle_rejection in src: a not-found
rejection, a method-not-allowed rejection, or any other rejection (carrying
its debug description, which handle_rejection only logs). -/
inductive Rejection where
  | notFound
  | methodNotAllowed
  | other : String → Rejection
deriving DecidableEq, Repr

/-- Outcome of running one handler body: a successful reply value, a warp
rejection (an Err of the handler), or a panic (what Rust unwrap does on an
Err query result — the panic message is the error's description). -/
inductive HandlerOutcome (α : Type) where
  | ok : α → HandlerOutcome α
  | reject : Rejection → HandlerOutcome α
  | panic : String → HandlerOutcome α
deriving DecidableEq, Repr

/-- get_gifs from src, as a function of the outcome of executing the fetch
query (`queryResult`; an Err means the database call failed). The handler
unwraps the query result (so an Err panics), rejects with not_found when
zero rows came back, and otherwise replies with the row at index 0
serialized as JSON; the indexing is modelled totally, with a panic outcome
for an out-of-bounds index as in Rust. -/
def get_gifs (queryResult : Except String (List Gif)) : HandlerOutcome Json :=
  match queryResult with
  | Except.error e => HandlerOutcome.panic e
  | Except.ok gifs =>
    if gifs.length = 0 then
      HandlerOutcome.reject Rejection.notFound
    else
      match gifs[0]? with
      | some g => HandlerOutcome.ok (serializeGif g)
      | none => HandlerOutcome.panic "index out of bounds"

/-- post_gifs from src, as a function of the outcome of executing the insert
query. The handler unwraps the query result (an Err panics) and replies with
the WHOLE returned row vector serialized as JSON (a JSON array). -/
def post_gifs (queryResult : Except String (List Id)) : HandlerOutcome Json :=
  match queryResult with
  | Except.error e => HandlerOutcome.panic e
  | Except.ok gifs => HandlerOutcome.ok (serializeIdList gifs)

/-- A response body: JSON (reply json) or plain text (the diagnostic
endpoints). -/
inductive Body where
  | json : Json → Body
  | text : String → Body

/-- An HTTP response: status code and body. -/
structure Response where
  status : Nat
  body : Body

/-- handle_rejection from src: not-found rejections become 404 NOT_FOUND,
method-not-allowed rejections become 405 METHOD_NOT_ALLOWED, and anything
else becomes 500 UNHANDLED_REJECTION (the rejection itself is only logged);
the body is the ErrorMessage envelope built from the chosen status code and
message, serialized as JSON, and the response status is that same code. -/
def handle_rejection (err : Rejection) : Response :=
  let cm : Nat × String :=
    match err with
    | Rejection.notFound => (404, "NOT_FOUND")
    | Rejection.methodNotAllowed => (405, "METHOD_NOT_ALLOWED")
    | Rejection.other _ => (500, "UNHANDLED_REJECTION")
  ⟨cm.1, Body.json (serializeErrorMessage ⟨cm.1, cm.2⟩)⟩

/-- An incoming HTTP request: method, path segments, and the decoded query
string as key-value pairs. -/
structure Request where
  method : String
  path : List String
  query : List (String × String)
deriving DecidableEq, Repr

/-- Parse of a path segment as a u8, the FromStr used by the sleepy route's
path parameter: decimal digits, value at most 255. -/
def parseU8 (s : String) : Option Nat :=
  match s.toNat? with
  | some n => if n ≤ 255 then some n else none
  | none => none

/-- Which handler a request is dispatched to, with the extracted arguments. -/
inductive Dispatch where
  | sleepy : Nat → Dispatch
  | stringy : String → Dispatch
  | insertGif : String → String → Dispatch
  | fetchGif : String → Dispatch
  | rejected : Rejection → Dispatch
deriving DecidableEq, Repr

/-- Modelled from the spec: the dispatch of the warp filter chain built in
main (the warp framework is an external collaborator, not part of this
repository; branch order and match conditions are from src/src/main.rs main).
Only GET requests reach the route branches; any other method is rejected as
method-not-allowed. The branches are tried in source order: the wait route
(one path segment parsing as u8), the re/string route, then the two
api/gif/category routes, where the insert branch applies exactly when query
deserialization of UrlQuery succeeds, i.e. when a url query parameter is
present, and the fetch branch otherwise; a request matching no branch is
rejected as not-found. -/
def route (req : Request) : Dispatch :=
  if req.method = "GET" then
    match req.path with
    | [s] =>
      match parseU8 s with
      | some n => Dispatch.sleepy n
      | none => Dispatch.rejected Rejection.notFound
    | ["re", s] => Dispatch.stringy s
    | ["api", "gif", cat] =>
      match List.lookup "url" req.query with
      | some u => Dispatch.insertGif cat u
      | none => Dispatch.fetchGif cat
    | _ => Dispatch.rejected Rejection.notFound
  else
    Dispatch.rejected Rejection.methodNotAllowed

/-- Outcome of one request against the whole service: a response, or a
panic of the handler task (which produces no response through
handle_rejection). -/
inductive ServeResult where
  | response : Response → ServeResult
  | panicked : String → ServeResult

/-- One request against the service, composing route dispatch, the handler
bodies, the storage semantics and the recover stage (handle_rejection) as
wired in main. `t` is the current table, `pick` the random choice made by
order by random, `now` the wall-clock millisecond seen by gen_flake, and
`dbErr` the transport failure, if any, of the database call (none means the
query executes). Successful handler replies become 200 responses; handler
rejections go through handle_rejection; a handler panic yields no response.
Returns the table after the request together with the outcome. -/
def serve (req : Request) (t : Table) (pick : Nat) (now : Int)
    (dbErr : Option String) : Table × ServeResult :=
  match route req with
  | Dispatch.rejected r => (t, ServeResult.response (handle_rejection r))
  | Dispatch.sleepy n =>
    (t, ServeResult.response ⟨200, Body.text ("I waited " ++ toString n ++ " seconds!")⟩)
  | Dispatch.stringy s =>
    (t, ServeResult.response ⟨200, Body.text (s.replace "%20" " ")⟩)
  | Dispatch.fetchGif cat =>
    let queryResult : Except String (List Gif) :=
      match dbErr with
      | some e => Except.error e
      | none => Except.ok (runFetch t cat pick)
    match get_gifs queryResult with
    | HandlerOutcome.ok body => (t, ServeResult.response ⟨200, Body.json body⟩)
    | HandlerOutcome.reject r => (t, ServeResult.response (handle_rejection r))
    | HandlerOutcome.panic e => (t, ServeResult.panicked e)
  | Dispatch.insertGif cat u =>
    match dbErr with
    | some e => (t, ServeResult.panicked e)
    | none =>
      let r := runInsert t (gen_flake now) u cat
      match post_gifs (Except.ok r.2) with
      | HandlerOutcome.ok body => (r.1, ServeResult.response ⟨200, Body.json body⟩)
      | HandlerOutcome.reject rj => (r.1, ServeResult.response (handle_rejection rj))
      | HandlerOutcome.panic e => (r.1, ServeResult.panicked e)

/-! Theorems about the claims. -/

/-- C1: evaluation of gen_flake at the failing input. Two calls within the
same millisecond (1 ms after the Discord epoch) each build a fresh Snowflake
and both return 4329472, so the returned values are not distinct (and in
particular not strictly increasing within the millisecond): the claimed
uniqueness of gen_flake ids fails on the code. -/
theorem gen_flake_same_millisecond_duplicate :
    gen_flake_calls [1420070400001, 1420070400001] = [4329472, 4329472] ∧
    ¬ (gen_flake_calls [1420070400001, 1420070400001]).Nodup := by
  have h : gen_flake_calls [1420070400001, 1420070400001] = [4329472, 4329472] := by
    norm_num [gen_flake_calls, gen_flake, Snowflake.generate, Snowflake.new]
  refine ⟨h, ?_⟩
  rw [h]
  decide

/-- C2: evaluation of gen_flake at the failing input. gen_flake constructs a
new Snowflake on every call and drops it on return, so two calls in the same
millisecond yield the same id twice (4329472, 4329472); a single long-lived
instance threading its state through the same two calls would yield 4329472
then 4329473. The claim that every call operates on one long-lived state
created at service start fails on the code. -/
theorem gen_flake_fresh_state_per_call :
    gen_flake_calls [1420070400001, 1420070400001] = [4329472, 4329472] ∧
    gen_calls_single (Snowflake.new 1420070400000 1 1) [1420070400001, 1420070400001] =
      [4329472, 4329473] := by
  constructor
  · norm_num [gen_flake_calls, gen_flake, Snowflake.generate, Snowflake.new]
  · norm_num [gen_calls_single, Snowflake.generate, Snowflake.new]

/-- C9: both storage operations submit a fixed query text with the user
inputs passed only as bound parameters: the text is the same across any two
runs with different category/url/id values, and the inputs appear only in
the bound-parameter lists. -/
theorem queries_fixed_text_bound_params (c c' u u' : String) (i i' : Int) :
    (fetch_gifs_query c).text = (fetch_gifs_query c').text ∧
    (insert_gif_query i u c).text = (insert_gif_query i' u' c').text ∧
    (fetch_gifs_query c).text = fetchQueryText ∧
    (insert_gif_query i u c).text = insertQueryText ∧
    (fetch_gifs_query c).params = [SqlParam.str c] ∧
    (insert_gif_query i u c).params = [SqlParam.int i, SqlParam.str u, SqlParam.str c] :=
  ⟨rfl, rfl, rfl, rfl, rfl, rfl⟩

/-- C10: on a successful query result, get_gifs never reaches the
out-of-bounds panic: an empty row list is rejected as not_found before the
index-0 access, and a non-empty row list yields the first row serialized as
the JSON reply. -/
theorem get_gifs_index_guarded (gifs : List Gif) :
    (∀ msg, get_gifs (Except.ok gifs) ≠ HandlerOutcome.panic msg) ∧
    (gifs.length = 0 → get_gifs (Except.ok gifs) = HandlerOutcome.reject Rejection.notFound) ∧
    (∀ g gs, gifs = g :: gs → get_gifs (Except.ok gifs) = HandlerOutcome.ok (serializeGif g)) := by
  refine ⟨?_, ?_, ?_⟩
  · intro msg
    cases gifs with
    | nil => simp [get_gifs]
    | cons g gs => simp [get_gifs]
  · intro h
    cases gifs with
    | nil => simp [get_gifs]
    | cons g gs => simp at h
  · intro g0 gs0 h
    subst h
    simp [get_gifs]

/-- C10 witness: the guarded indexing evaluated on a concrete one-row result. -/
theorem get_gifs_index_guarded_witness :
    get_gifs (Except.ok [⟨1, "u0", "c0"⟩]) ≠ HandlerOutcome.panic "boom" ∧
    get_gifs (Except.ok [⟨1, "u0", "c0"⟩]) = HandlerOutcome.ok (serializeGif ⟨1, "u0", "c0"⟩) :=
  ⟨(get_gifs_index_guarded [⟨1, "u0", "c0"⟩]).1 "boom",
   (get_gifs_index_guarded [⟨1, "u0", "c0"⟩]).2.2 ⟨1, "u0", "c0"⟩ [] rfl⟩

/-- C3 counterexample: a successful insert request does NOT answer with the
bare id object as body. At the concrete request GET api/gif/cats with
url=http://x against the empty table (clock 1 ms after the Discord epoch,
generated id 4329472), the response body is not the JSON object with the
single field id: post_gifs serializes the whole returned row vector, so the
body is the one-element JSON array around that object. -/
theorem post_gifs_body_not_bare_id_object :
    (serve ⟨"GET", ["api", "gif", "cats"], [("url", "http://x")]⟩ [] 0 1420070400001 none).2 ≠
      ServeResult.response ⟨200, Body.json (Json.obj [("id", Json.int 4329472)])⟩ := by
  simp [serve, route, post_gifs, runInsert, serializeIdList, serializeId, List.lookup]

/-- C3 amended: for every request GET api/gif/category with a url query
parameter whose insert succeeds, the response is HTTP 200 and its body is
the one-element JSON array holding the id object of the newly inserted row
(the serialization of the returned Vec of Id), the id being the generated
flake. -/
theorem post_gifs_returns_array_of_inserted_id (u cat : String) (t : Table) (pick : Nat)
    (now : Int) :
    serve ⟨"GET", ["api", "gif", cat], [("url", u)]⟩ t pick now none =
      (t ++ [⟨gen_flake now, u, cat⟩],
       ServeResult.response
        ⟨200, Body.json (Json.arr [Json.obj [("id", Json.int (gen_flake now))]])⟩) := by
  simp [serve, route, post_gifs, runInsert, serializeIdList, serializeId, List.lookup]

/-- C4 counterexample: a storage failure does not produce the 500
UNHANDLED_REJECTION envelope. At the concrete fetch request GET api/gif/cats
whose database call fails, the handler unwraps the Err and panics, so the
outcome is not the 500 response the claim describes (no response reaches the
rejection handler at all). -/
theorem storage_failure_panics_not_500 :
    (serve ⟨"GET", ["api", "gif", "cats"], []⟩ [] 0 0 (some "connection closed")).2 ≠
      ServeResult.response ⟨500, Body.json (serializeErrorMessage ⟨500, "UNHANDLED_REJECTION"⟩)⟩ := by
  simp [serve, route, get_gifs, List.lookup]

/-- C4 amended: every rejection other than not-found and method-not-allowed
that reaches the rejection handler is answered with HTTP 500 and the fixed
envelope code 500, message UNHANDLED_REJECTION, independent of the
rejection's content (no internal detail in the body); a storage/query
failure, however, panics the handler through unwrap and never reaches the
rejection handler, so it yields no response at all. -/
theorem unhandled_rejection_500_generic_envelope (s e cat : String) (t : Table) (pick : Nat)
    (now : Int) :
    handle_rejection (Rejection.other s) =
      ⟨500, Body.json (serializeErrorMessage ⟨500, "UNHANDLED_REJECTION"⟩)⟩ ∧
    (serve ⟨"GET", ["api", "gif", cat], []⟩ t pick now (some e)).2 = ServeResult.panicked e := by
  constructor
  · rfl
  · simp [serve, route, get_gifs, List.lookup]

/-- C5: a GET request whose path matches api/gif/category is dispatched to
the insert handler exactly when the url query parameter is present, and to
the fetch handler exactly when it is absent. -/
theorem route_disambiguation_by_url_param (cat : String) (q : List (String × String)) :
    ((∃ u, route ⟨"GET", ["api", "gif", cat], q⟩ = Dispatch.insertGif cat u) ↔
      (∃ u, List.lookup "url" q = some u)) ∧
    ((route ⟨"GET", ["api", "gif", cat], q⟩ = Dispatch.fetchGif cat) ↔
      List.lookup "url" q = none) := by
  cases h : List.lookup "url" q with
  | some u => simp [route, h]
  | none => simp [route, h]

/-- C6: when no row of the table has the requested category, the fetch
request is answered with HTTP 404 and the envelope code 404, message
NOT_FOUND: get_gifs rejects with not_found on the empty result set and the
rejection handler maps it to the 404 response. -/
theorem fetch_empty_category_yields_404 (t : Table) (cat : String) (pick : Nat) (now : Int)
    (h : ∀ g ∈ t, g.category ≠ cat) :
    serve ⟨"GET", ["api", "gif", cat], []⟩ t pick now none =
      (t, ServeResult.response ⟨404, Body.json (serializeErrorMessage ⟨404, "NOT_FOUND"⟩)⟩) := by
  have hf : t.filter (fun g => g.category = cat) = [] := by
    rw [List.filter_eq_nil_iff]
    intro g hg
    simp [h g hg]
  simp [serve, route, get_gifs, runFetch, hf, handle_rejection, serializeErrorMessage, List.lookup]

/-- C6 witness: the fetch of a nonexistent category against the empty table. -/
theorem fetch_empty_category_yields_404_witness :
    serve ⟨"GET", ["api", "gif", "nonexistent"], []⟩ [] 0 0 none =
      ([], ServeResult.response ⟨404, Body.json (serializeErrorMessage ⟨404, "NOT_FOUND"⟩)⟩) :=
  fetch_empty_category_yields_404 [] "nonexistent" 0 0 (by simp)

/-- C7: every response of the rejection handler carries the envelope whose
code field equals the response's own status; a non-GET method on the
api/gif path is answered 405 METHOD_NOT_ALLOWED, and a GET on a path no
route matches is answered 404 NOT_FOUND. -/
theorem error_envelope_code_matches_status (err : Rejection) (t : Table) (pick : Nat)
    (now : Int) (db : Option String) :
    (∃ m, (handle_rejection err).body =
        Body.json (serializeErrorMessage ⟨(handle_rejection err).status, m⟩)) ∧
    handle_rejection Rejection.methodNotAllowed =
      ⟨405, Body.json (serializeErrorMessage ⟨405, "METHOD_NOT_ALLOWED"⟩)⟩ ∧
    (serve ⟨"POST", ["api", "gif", "cats"], []⟩ t pick now db).2 =
      ServeResult.response ⟨405, Body.json (serializeErrorMessage ⟨405, "METHOD_NOT_ALLOWED"⟩)⟩ ∧
    (serve ⟨"GET", ["definitely", "not", "a", "route"], []⟩ t pick now db).2 =
      ServeResult.response ⟨404, Body.json (serializeErrorMessage ⟨404, "NOT_FOUND"⟩)⟩ := by
  refine ⟨?_, rfl, ?_, ?_⟩
  · cases err <;> exact ⟨_, rfl⟩
  · simp [serve, route, handle_rejection, serializeErrorMessage]
  · simp [serve, route, handle_rejection, serializeErrorMessage]

/-- C8: after a successful insert of a url into a category with no other
matching rows, the insert response carries exactly the returned id (the
generated flake), and a subsequent fetch of that category returns HTTP 200
with that very row as body: its id is the id the insert returned, its url
and category are the inserted ones. -/
theorem insert_then_fetch_roundtrip (t : Table) (u cat : String) (pick pick2 : Nat)
    (now now2 : Int) (h : ∀ g ∈ t, g.category ≠ cat) :
    serve ⟨"GET", ["api", "gif", cat], [("url", u)]⟩ t pick now none =
      (t ++ [⟨gen_flake now, u, cat⟩],
       ServeResult.response ⟨200, Body.json (serializeIdList [⟨gen_flake now⟩])⟩) ∧
    (serve ⟨"GET", ["api", "gif", cat], []⟩ (t ++ [⟨gen_flake now, u, cat⟩]) pick2 now2 none).2 =
      ServeResult.response ⟨200, Body.json (serializeGif ⟨gen_flake now, u, cat⟩)⟩ := by
  have hf : (t ++ [(⟨gen_flake now, u, cat⟩ : Gif)]).filter (fun g => g.category = cat) =
      [⟨gen_flake now, u, cat⟩] := by
    rw [List.filter_append]
    have h1 : t.filter (fun g => g.category = cat) = [] := by
      rw [List.filter_eq_nil_iff]
      intro g hg
      simp [h g hg]
    simp [h1]
  constructor
  · simp [serve, route, post_gifs, runInsert, serializeIdList, serializeId, List.lookup]
  · simp [serve, route, get_gifs, runFetch, hf, List.lookup, Nat.mod_one]

/-- C8 witness: inserting url http://x into category cats against the empty
table (clock 1 ms after the Discord epoch) and fetching category cats. -/
theorem insert_then_fetch_roundtrip_witness :
    serve ⟨"GET", ["api", "gif", "cats"], [("url", "http://x")]⟩ [] 0 1420070400001 none =
      ([⟨gen_flake 1420070400001, "http://x", "cats"⟩],
       ServeResult.response
        ⟨200, Body.json (serializeIdList [⟨gen_flake 1420070400001⟩])⟩) ∧
    (serve ⟨"GET", ["api", "gif", "cats"], []⟩
        ([] ++ [⟨gen_flake 1420070400001, "http://x", "cats"⟩]) 0 0 none).2 =
      ServeResult.response
        ⟨200, Body.json (serializeGif ⟨gen_flake 1420070400001, "http://x", "cats"⟩)⟩ :=
  insert_then_fetch_roundtrip [] "http://x" "cats" 0 0 1420070400001 0 (by simp)

end GifApp
